import Mathlib

/-!
Verification of the `illumina_coordinates` crate (`src/lib.rs`): a shallow
embedding of `parse_sequence_identifier` and proofs about it.

Strings are modelled as `List Char`.  Rust byte-level operations that can
panic (`str::split_at`) are modelled explicitly: `splitAt1` returns `none`
exactly when Rust's `split_at(1)` would panic (empty string, or first
character wider than one UTF-8 byte).  Fallible results are modelled by
`PResult`, which has a third outcome `panicked` for panics.
-/

namespace IlluminaCoordinates

/-- Unicode white-space recognised by Rust's `str::trim`
(`char::is_whitespace`, the Unicode White_Space property). -/
def isRustWhitespace (c : Char) : Bool :=
  let n := c.toNat
  n == 0x09 || n == 0x0A || n == 0x0B || n == 0x0C || n == 0x0D || n == 0x20 ||
  n == 0x85 || n == 0xA0 || n == 0x1680 || (0x2000 ≤ n && n ≤ 0x200A) ||
  n == 0x2028 || n == 0x2029 || n == 0x202F || n == 0x205F || n == 0x3000

/-- Rust's `text.trim()`: drop leading and trailing white-space. -/
def rustTrim (s : List Char) : List Char :=
  ((s.dropWhile isRustWhitespace).reverse.dropWhile isRustWhitespace).reverse

/-- Splitting as in Rust's `s.split(sep).collect()` on a single character.
Like Rust, it never yields an empty list: splitting the empty string gives
`[[]]`, and empty segments between adjacent separators are kept. -/
def splitChar (sep : Char) : List Char → List (List Char)
  | [] => [[]]
  | c :: rest =>
    if c = sep then [] :: splitChar sep rest
    else
      match splitChar sep rest with
      | [] => [[c]]
      | t :: ts => (c :: t) :: ts

/-- Rust's `s.split_at(1)`: returns the first character and the rest, or `none`
exactly when Rust would panic (byte index 1 out of bounds on an empty
string, or not a character boundary because the first character takes more
than one UTF-8 byte, i.e. its code point is ≥ 128). -/
def splitAt1 : List Char → Option (Char × List Char)
  | [] => none
  | c :: rest => if c.toNat < 128 then some (c, rest) else none

/-- Strip one leading plus sign, as Rust's integer `from_str` does. -/
def stripPlus (s : List Char) : List Char :=
  match s with
  | c :: rest => if c = '+' then rest else s
  | [] => []

/-- Numeric value of a list of decimal digits. -/
def digitsToNat (ds : List Char) : Nat :=
  ds.foldl (fun acc c => acc * 10 + (c.toNat - 48)) 0

/-- Rust's `s.parse::<uN>()` for an unsigned integer type with maximum value
`max`: after an optional leading `+`, the string must be one or more
decimal digits and the value must fit, otherwise the parse fails
(`Empty` / `InvalidDigit` / `PosOverflow` all collapse to `none`). -/
def parseUnsigned (max : Nat) (s : List Char) : Option Nat :=
  let ds := stripPlus s
  if ds.isEmpty then none
  else if ds.all Char.isDigit then
    if digitsToNat ds ≤ max then some (digitsToNat ds) else none
  else none

/-- The `Sample` enum: the sample-sheet number, or the literal sequence for
undetermined reads. -/
inductive Sample where
  | Number (n : Nat)
  | Sequence (s : List Char)
deriving DecidableEq

/-- The `IlluminaError` enum: the two error kinds of the crate. -/
inductive IlluminaError where
  | ParseError
  | SplitError
deriving DecidableEq

/-- A parsed sequence identifier (field for field the Rust struct;
`u8`/`u16` fields carried as `Nat`, values kept in range by parsing). -/
structure SequenceIdentifier where
  sequencer_id : List Char
  run_count : Nat
  flow_cell_id : List Char
  lane : Nat
  side : Nat
  swath : Nat
  tile : Nat
  x : Nat
  y : Nat
  read : Nat
  is_filtered : Bool
  control_number : Nat
  sample : Sample
deriving DecidableEq

/-- Outcome of running the Rust function: an `Ok` value, an `Err`, or a
panic (reachable through `str::split_at`). -/
inductive PResult (α : Type) where
  | ok (val : α)
  | err (e : IlluminaError)
  | panicked
deriving DecidableEq

namespace PResult

/-- Sequencing of fallible steps: Rust's `?` on `Result`, with panics
propagated. -/
def bind {α β : Type} : PResult α → (α → PResult β) → PResult β
  | ok a, f => f a
  | err e, _ => err e
  | panicked, _ => panicked

instance : Monad PResult where
  pure := ok
  bind := bind

end PResult

/-- Steps of the form `left[i].parse::<uN>()?`: a failed integer parse becomes
`IlluminaError::ParseError` via the `From<ParseIntError>` impl. -/
def parseNum (max : Nat) (s : List Char) : PResult Nat :=
  match parseUnsigned max s with
  | some n => .ok n
  | none => .err .ParseError

/-- Rust's `s.split_at(1)` used as a fallible step: panics become `panicked`. -/
def splitAtFirst (s : List Char) : PResult (Char × List Char) :=
  match splitAt1 s with
  | some p => .ok p
  | none => .panicked

/-- The `match right[1] { "Y" => true, "N" => false, _ => ParseError }`
step. -/
def parseFilterFlag (s : List Char) : PResult Bool :=
  if s = ['Y'] then .ok true
  else if s = ['N'] then .ok false
  else .err .ParseError

/-- The first nine fields, extracted from the seven `:`-tokens of the left
half, in the source's evaluation order (lines 143–153 of `lib.rs`). -/
structure LeftFields where
  sequencer_id : List Char
  run_count : Nat
  flow_cell_id : List Char
  lane : Nat
  side : Nat
  swath : Nat
  tile : Nat
  x : Nat
  y : Nat
deriving DecidableEq

/-- Lines 143–153 of `lib.rs`: decode the seven left-half tokens. -/
def parseLeft (t0 t1 t2 t3 t4 t5 t6 : List Char) : PResult LeftFields := do
  let (_, sequencer_id) ← splitAtFirst t0
  let run_count ← parseNum 65535 t1
  let flow_cell_id := t2
  let lane ← parseNum 255 t3
  let (side_char, remainder) ← splitAtFirst t4
  let (swath_char, tile_str) ← splitAtFirst remainder
  let side ← parseNum 255 [side_char]
  let swath ← parseNum 255 [swath_char]
  let tile ← parseNum 255 tile_str
  let x ← parseNum 65535 t5
  let y ← parseNum 65535 t6
  return { sequencer_id, run_count, flow_cell_id, lane, side, swath, tile, x, y }

/-- Lines 143–166 of `lib.rs`: decode all eleven tokens into the record.
The sample token is the one fallible parse whose failure is absorbed
(`Err(_) => Sample::Sequence`). -/
def parseTokens (t0 t1 t2 t3 t4 t5 t6 r0 r1 r2 r3 : List Char) :
    PResult SequenceIdentifier := do
  let lf ← parseLeft t0 t1 t2 t3 t4 t5 t6
  let read ← parseNum 255 r0
  let is_filtered ← parseFilterFlag r1
  let control_number ← parseNum 255 r2
  let sample := match parseUnsigned 255 r3 with
    | some n => Sample.Number n
    | none => Sample.Sequence r3
  return { sequencer_id := lf.sequencer_id, run_count := lf.run_count,
           flow_cell_id := lf.flow_cell_id, lane := lf.lane, side := lf.side,
           swath := lf.swath, tile := lf.tile, x := lf.x, y := lf.y,
           read, is_filtered, control_number, sample }

/-- The function `parse_sequence_identifier` (`lib.rs` lines 130–183): trim, split into
exactly two space-separated halves, split those into exactly 7 and 4
colon-separated tokens, then decode. -/
def parse_sequence_identifier (text : List Char) : PResult SequenceIdentifier :=
  match splitChar ' ' (rustTrim text) with
  | [leftHalf, rightHalf] =>
    match splitChar ':' leftHalf with
    | [t0, t1, t2, t3, t4, t5, t6] =>
      match splitChar ':' rightHalf with
      | [r0, r1, r2, r3] => parseTokens t0 t1 t2 t3 t4 t5 t6 r0 r1 r2 r3
      | _ => .err .SplitError
    | _ => .err .SplitError
  | _ => .err .SplitError

/-- The example line from the crate's documentation and test suite. -/
def exampleLine : List Char :=
  "@M03745:11:000000000-B54L5:1:2108:4127:8949 1:N:0:0".toList

/-! ## Inversion lemmas for the fallible steps -/

theorem PResult.pure_eq {α : Type} (a : α) : (pure a : PResult α) = .ok a := rfl

theorem PResult.bind_ok_iff {α β : Type} (x : PResult α) (f : α → PResult β)
    (b : β) : (x >>= f) = .ok b ↔ ∃ a, x = .ok a ∧ f a = .ok b := by
  cases x <;> simp [Bind.bind, PResult.bind]

theorem PResult.bind_err_iff {α β : Type} (x : PResult α) (f : α → PResult β)
    (e : IlluminaError) :
    (x >>= f) = .err e ↔ x = .err e ∨ ∃ a, x = .ok a ∧ f a = .err e := by
  cases x <;> simp [Bind.bind, PResult.bind]

theorem parseNum_ok_iff {w : Nat} {s : List Char} {n : Nat} :
    parseNum w s = .ok n ↔ parseUnsigned w s = some n := by
  cases h : parseUnsigned w s <;> simp [parseNum, h]

theorem parseNum_err_iff {w : Nat} {s : List Char} {e : IlluminaError} :
    parseNum w s = .err e ↔ parseUnsigned w s = none ∧ e = .ParseError := by
  cases h : parseUnsigned w s with
  | none => simp [parseNum, h, eq_comm]
  | some n => simp [parseNum, h]

theorem splitAtFirst_ok_iff {s : List Char} {p : Char × List Char} :
    splitAtFirst s = .ok p ↔ s = p.1 :: p.2 ∧ p.1.toNat < 128 := by
  obtain ⟨c, r⟩ := p
  constructor
  · intro h
    cases s with
    | nil => simp [splitAtFirst, splitAt1] at h
    | cons a t =>
      by_cases ha : a.toNat < 128
      · simp [splitAtFirst, splitAt1, ha] at h
        obtain ⟨hac, htr⟩ := h
        subst hac
        subst htr
        exact ⟨rfl, ha⟩
      · simp [splitAtFirst, splitAt1, ha] at h
  · rintro ⟨hs, hc⟩
    subst hs
    simp [splitAtFirst, splitAt1, hc]

theorem splitAtFirst_ne_err {s : List Char} {e : IlluminaError} :
    splitAtFirst s ≠ .err e := by
  cases s with
  | nil => simp [splitAtFirst, splitAt1]
  | cons a t =>
    by_cases ha : a.toNat < 128
    · simp [splitAtFirst, splitAt1, ha]
    · simp [splitAtFirst, splitAt1, ha]

theorem parseFilterFlag_ok_iff {s : List Char} {b : Bool} :
    parseFilterFlag s = .ok b ↔
      (s = ['Y'] ∧ b = true) ∨ (s = ['N'] ∧ b = false) := by
  by_cases hy : s = ['Y']
  · simp [parseFilterFlag, hy, eq_comm]
  · by_cases hn : s = ['N']
    · simp [parseFilterFlag, hy, hn, eq_comm]
    · simp [parseFilterFlag, hy, hn]

theorem parseFilterFlag_err_iff {s : List Char} {e : IlluminaError} :
    parseFilterFlag s = .err e ↔
      s ≠ ['Y'] ∧ s ≠ ['N'] ∧ e = .ParseError := by
  by_cases hy : s = ['Y']
  · simp [parseFilterFlag, hy]
  · by_cases hn : s = ['N']
    · simp [parseFilterFlag, hy, hn]
    · simp [parseFilterFlag, hy, hn, eq_comm]

/-- When the three split equations hold, the parser is exactly the
token-level decoder. -/
theorem parse_eq_parseTokens {text lh rh t0 t1 t2 t3 t4 t5 t6 r0 r1 r2 r3 :
    List Char}
    (hs : splitChar ' ' (rustTrim text) = [lh, rh])
    (hl : splitChar ':' lh = [t0, t1, t2, t3, t4, t5, t6])
    (hr : splitChar ':' rh = [r0, r1, r2, r3]) :
    parse_sequence_identifier text =
      parseTokens t0 t1 t2 t3 t4 t5 t6 r0 r1 r2 r3 := by
  simp only [parse_sequence_identifier, hs, hl, hr]

/-- Inversion of a successful left-half decode: each token must have
parsed, and the compound fifth token split into first and second
characters plus a remainder. -/
theorem parseLeft_ok_inv {t0 t1 t2 t3 t4 t5 t6 : List Char} {lf : LeftFields}
    (h : parseLeft t0 t1 t2 t3 t4 t5 t6 = .ok lf) :
    ∃ d c1 c2 rest,
      t0 = d :: lf.sequencer_id ∧ d.toNat < 128 ∧
      parseUnsigned 65535 t1 = some lf.run_count ∧
      lf.flow_cell_id = t2 ∧
      parseUnsigned 255 t3 = some lf.lane ∧
      t4 = c1 :: c2 :: rest ∧ c1.toNat < 128 ∧ c2.toNat < 128 ∧
      parseUnsigned 255 [c1] = some lf.side ∧
      parseUnsigned 255 [c2] = some lf.swath ∧
      parseUnsigned 255 rest = some lf.tile ∧
      parseUnsigned 65535 t5 = some lf.x ∧
      parseUnsigned 65535 t6 = some lf.y := by
  simp only [parseLeft, PResult.bind_ok_iff, PResult.pure_eq, Prod.exists,
    splitAtFirst_ok_iff, parseNum_ok_iff, PResult.ok.injEq] at h
  obtain ⟨d, sid, ⟨ht0, hd⟩, rc, hrc, ln, hln, c1, rem, ⟨ht4, hc1⟩, c2, rest,
    ⟨hrem, hc2⟩, sd, hsd, sw, hsw, tl, htl, xv, hxv, yv, hyv, hlf⟩ := h
  subst hlf
  subst hrem
  exact ⟨d, c1, c2, rest, ht0, hd, hrc, rfl, hln, ht4, hc1, hc2, hsd, hsw,
    htl, hxv, hyv⟩

/-- Inversion of a successful full decode into its four stages. -/
theorem parseTokens_ok_inv {t0 t1 t2 t3 t4 t5 t6 r0 r1 r2 r3 : List Char}
    {rec : SequenceIdentifier}
    (h : parseTokens t0 t1 t2 t3 t4 t5 t6 r0 r1 r2 r3 = .ok rec) :
    ∃ lf rd b cn, parseLeft t0 t1 t2 t3 t4 t5 t6 = .ok lf ∧
      parseNum 255 r0 = .ok rd ∧ parseFilterFlag r1 = .ok b ∧
      parseNum 255 r2 = .ok cn ∧
      rec = { sequencer_id := lf.sequencer_id, run_count := lf.run_count,
              flow_cell_id := lf.flow_cell_id, lane := lf.lane,
              side := lf.side, swath := lf.swath, tile := lf.tile,
              x := lf.x, y := lf.y, read := rd, is_filtered := b,
              control_number := cn,
              sample := match parseUnsigned 255 r3 with
                | some n => Sample.Number n
                | none => Sample.Sequence r3 } := by
  simp only [parseTokens, PResult.bind_ok_iff, PResult.pure_eq,
    PResult.ok.injEq] at h
  obtain ⟨lf, hlf, rd, hrd, b, hb, cn, hcn, hrec⟩ := h
  exact ⟨lf, rd, b, cn, hlf, hrd, hb, hcn, hrec.symm⟩

/-! ## Claims -/

/-- Claim C1: parsing the documented example line
`@M03745:11:000000000-B54L5:1:2108:4127:8949 1:N:0:0` succeeds and yields
exactly the documented record. -/
theorem claim_C1 : parse_sequence_identifier exampleLine =
    .ok { sequencer_id := "M03745".toList, run_count := 11,
          flow_cell_id := "000000000-B54L5".toList, lane := 1, side := 2,
          swath := 1, tile := 8, x := 4127, y := 8949, read := 1,
          is_filtered := false, control_number := 0,
          sample := Sample.Number 0 } := by decide

/-- Claim C2: on every accepted full-format line the fifth colon-token of
the left half decomposes positionally: its first character parses (as
unsigned 8-bit) to `side`, its second character to `swath`, and the
remaining characters to `tile`. -/
theorem claim_C2 (text : List Char) (r : SequenceIdentifier)
    (h : parse_sequence_identifier text = .ok r) :
    ∃ lh rh t0 t1 t2 t3 c1 c2 rest t5 t6,
      splitChar ' ' (rustTrim text) = [lh, rh] ∧
      splitChar ':' lh = [t0, t1, t2, t3, c1 :: c2 :: rest, t5, t6] ∧
      parseUnsigned 255 [c1] = some r.side ∧
      parseUnsigned 255 [c2] = some r.swath ∧
      parseUnsigned 255 rest = some r.tile := by
  unfold parse_sequence_identifier at h
  split at h
  next lh rh hs =>
    split at h
    next t0 t1 t2 t3 t4 t5 t6 hl =>
      split at h
      next r0 r1 r2 r3 hr =>
        obtain ⟨lf, rd, b, cn, hlf, hrd, hb, hcn, hrec⟩ := parseTokens_ok_inv h
        obtain ⟨d, c1, c2, rest, ht0, hd, hrc, hfc, hln, ht4, hc1, hc2, hsd,
          hsw, htl, hxv, hyv⟩ := parseLeft_ok_inv hlf
        subst ht4
        refine ⟨lh, rh, t0, t1, t2, t3, c1, c2, rest, t5, t6, hs, hl, ?_, ?_, ?_⟩
        · rw [hrec]
          exact hsd
        · rw [hrec]
          exact hsw
        · rw [hrec]
          exact htl
      next => simp at h
    next => simp at h
  next => simp at h

/-- A line whose compound fifth token is a single character: `split_at(1)`
on the empty remainder is out of bounds, so the Rust code panics. -/
def panicLine : List Char :=
  "@M03745:11:000000000-B54L5:1:2:4127:8949 1:N:0:0".toList

/-- Claim C3 (refuted by the code): the parser is not total.  On a line
whose fifth colon-token has exactly one character, `remainder.split_at(1)`
(line 148 of `lib.rs`) panics with a byte-index-out-of-bounds instead of
returning a record or an error. -/
theorem claim_C3_panics : parse_sequence_identifier panicLine = .panicked := by
  decide

/-- When the halves are fixed, the parser is the two inner token matches. -/
theorem parse_split_shape (text lh rh : List Char)
    (hs : splitChar ' ' (rustTrim text) = [lh, rh]) :
    parse_sequence_identifier text =
      (match splitChar ':' lh with
       | [t0, t1, t2, t3, t4, t5, t6] =>
         match splitChar ':' rh with
         | [r0, r1, r2, r3] => parseTokens t0 t1 t2 t3 t4 t5 t6 r0 r1 r2 r3
         | _ => .err .SplitError
       | _ => .err .SplitError) := by
  simp only [parse_sequence_identifier, hs]

/-- Claim C4: whenever the left half does not split on `:` into exactly 7
tokens, or the right half not into exactly 4, the parser fails with
`SplitError` (and returns no record). -/
theorem claim_C4 (text lh rh : List Char)
    (hs : splitChar ' ' (rustTrim text) = [lh, rh])
    (hbad : (splitChar ':' lh).length ≠ 7 ∨ (splitChar ':' rh).length ≠ 4) :
    parse_sequence_identifier text = .err .SplitError := by
  rw [parse_split_shape text lh rh hs]
  split
  next t0 t1 t2 t3 t4 t5 t6 hl =>
    split
    next r0 r1 r2 r3 hr =>
      exfalso
      rw [hl, hr] at hbad
      simp at hbad
    next => rfl
  next => rfl

/-- Witness for C4 at the line `@a:b c:d:e:f` (2 left tokens, 4 right). -/
theorem claim_C4_witness :
    parse_sequence_identifier ("@a:b c:d:e:f".toList) = .err .SplitError :=
  claim_C4 ("@a:b c:d:e:f".toList) ("@a:b".toList) ("c:d:e:f".toList)
    (by decide) (Or.inl (by decide))

/-- Splitting a list that does not contain the separator yields the list
itself as the only segment. -/
theorem splitChar_eq_single {sep : Char} {l : List Char} (h : sep ∉ l) :
    splitChar sep l = [l] := by
  induction l with
  | nil => rfl
  | cons c rest ih =>
    have hc : ¬ c = sep := by
      rintro rfl
      exact h (List.mem_cons_self c rest)
    have hr : sep ∉ rest := fun hh => h (List.mem_cons_of_mem c hh)
    simp [splitChar, hc, ih hr]

/-- The coordinate-only example line from the spec (left half alone). -/
def coordLine : List Char :=
  "@M03745:11:000000000-B54L5:1:2108:4127:8949".toList

/-- Counterexample to claim C9: the coordinate-only line is not accepted;
the parser requires exactly two space-separated halves and returns
`SplitError` on the left half alone. -/
theorem claim_C9_counterexample :
    parse_sequence_identifier coordLine = .err .SplitError := by decide

/-- Claim C9 as amended: any line whose trimmed text contains no space —
in particular a coordinate-only line — is rejected with `SplitError`. -/
theorem claim_C9_amended (text : List Char) (h : ' ' ∉ rustTrim text) :
    parse_sequence_identifier text = .err .SplitError := by
  unfold parse_sequence_identifier
  rw [splitChar_eq_single h]

/-- Witness for the amended C9 at the coordinate-only example line. -/
theorem claim_C9_amended_witness :
    parse_sequence_identifier coordLine = .err .SplitError :=
  claim_C9_amended coordLine (by decide)

/-- Surrounding white-space does not survive `trim`. -/
theorem rustTrim_pad (ws1 ws2 s : List Char)
    (h1 : ∀ c ∈ ws1, isRustWhitespace c = true)
    (h2 : ∀ c ∈ ws2, isRustWhitespace c = true) :
    rustTrim (ws1 ++ s ++ ws2) = rustTrim s := by
  unfold rustTrim
  rw [List.append_assoc, List.dropWhile_append_of_pos h1,
    List.dropWhile_append]
  by_cases hd : (List.dropWhile isRustWhitespace s).isEmpty
  · rw [if_pos hd]
    have hw2 : List.dropWhile isRustWhitespace ws2 = [] :=
      List.dropWhile_eq_nil_iff.mpr h2
    have hs0 : List.dropWhile isRustWhitespace s = [] := by
      cases hx : List.dropWhile isRustWhitespace s
      · rfl
      · rw [hx] at hd
        simp at hd
    rw [hw2, hs0]
  · rw [if_neg hd, List.reverse_append,
      List.dropWhile_append_of_pos (fun a ha => h2 a (List.mem_reverse.mp ha))]

/-- Claim C7: surrounding white-space (trailing newline included) never
changes the result of parsing. -/
theorem claim_C7 (text ws1 ws2 : List Char)
    (h1 : ∀ c ∈ ws1, isRustWhitespace c = true)
    (h2 : ∀ c ∈ ws2, isRustWhitespace c = true) :
    parse_sequence_identifier (ws1 ++ text ++ ws2) =
      parse_sequence_identifier text := by
  unfold parse_sequence_identifier
  rw [rustTrim_pad ws1 ws2 text h1 h2]

/-- Witness for C7: the example line with a trailing newline parses the
same as the bare line. -/
theorem claim_C7_witness :
    parse_sequence_identifier (([] : List Char) ++ exampleLine ++ ['\n']) =
      parse_sequence_identifier exampleLine :=
  claim_C7 exampleLine [] ['\n'] (by decide) (by decide)

/-- Witness for C2 at the documented example line. -/
theorem claim_C2_witness : ∃ lh rh t0 t1 t2 t3 c1 c2 rest t5 t6,
    splitChar ' ' (rustTrim exampleLine) = [lh, rh] ∧
    splitChar ':' lh = [t0, t1, t2, t3, c1 :: c2 :: rest, t5, t6] ∧
    parseUnsigned 255 [c1] = some 2 ∧
    parseUnsigned 255 [c2] = some 1 ∧
    parseUnsigned 255 rest = some 8 :=
  claim_C2 exampleLine
    { sequencer_id := "M03745".toList, run_count := 11,
      flow_cell_id := "000000000-B54L5".toList, lane := 1, side := 2,
      swath := 1, tile := 8, x := 4127, y := 8949, read := 1,
      is_filtered := false, control_number := 0,
      sample := Sample.Number 0 } (by decide)

theorem PResult.ok_bind {α β : Type} (a : α) (f : α → PResult β) :
    ((.ok a : PResult α) >>= f) = f a := rfl

theorem PResult.err_bind {α β : Type} (e : IlluminaError) (f : α → PResult β) :
    ((.err e : PResult α) >>= f) = .err e := rfl

theorem PResult.panicked_bind {α β : Type} (f : α → PResult β) :
    ((.panicked : PResult α) >>= f) = .panicked := rfl

/-- Forward construction of a successful full decode from its stages. -/
theorem parseTokens_ok_intro {t0 t1 t2 t3 t4 t5 t6 r0 r1 r2 r3 : List Char}
    {lf : LeftFields} {rd : Nat} {b : Bool} {cn : Nat}
    (hlf : parseLeft t0 t1 t2 t3 t4 t5 t6 = .ok lf)
    (hrd : parseNum 255 r0 = .ok rd)
    (hb : parseFilterFlag r1 = .ok b)
    (hcn : parseNum 255 r2 = .ok cn) :
    parseTokens t0 t1 t2 t3 t4 t5 t6 r0 r1 r2 r3 =
      .ok { sequencer_id := lf.sequencer_id, run_count := lf.run_count,
            flow_cell_id := lf.flow_cell_id, lane := lf.lane,
            side := lf.side, swath := lf.swath, tile := lf.tile,
            x := lf.x, y := lf.y, read := rd, is_filtered := b,
            control_number := cn,
            sample := match parseUnsigned 255 r3 with
              | some n => Sample.Number n
              | none => Sample.Sequence r3 } := by
  simp only [parseTokens, hlf, PResult.ok_bind, hrd, hb, hcn, PResult.pure_eq]

/-- The example line with `Y` as the filter flag. -/
def exampleLineY : List Char :=
  "@M03745:11:000000000-B54L5:1:2108:4127:8949 1:Y:0:0".toList

/-- The record produced for the documented example line. -/
def exampleRecord : SequenceIdentifier :=
  { sequencer_id := "M03745".toList, run_count := 11,
    flow_cell_id := "000000000-B54L5".toList, lane := 1, side := 2,
    swath := 1, tile := 8, x := 4127, y := 8949, read := 1,
    is_filtered := false, control_number := 0, sample := Sample.Number 0 }

/-- Claim C5: on an otherwise well-formed full-format line (well-formed
when the filter token is replaced by `N`), the second right-half token
decides `is_filtered`: exactly `Y` gives `true`, exactly `N` gives
`false`, and anything else makes the parser return `ParseError`. -/
theorem claim_C5 (text lh rh t0 t1 t2 t3 t4 t5 t6 r0 r1 r2 r3 : List Char)
    (rec0 : SequenceIdentifier)
    (hs : splitChar ' ' (rustTrim text) = [lh, rh])
    (hl : splitChar ':' lh = [t0, t1, t2, t3, t4, t5, t6])
    (hr : splitChar ':' rh = [r0, r1, r2, r3])
    (hwf : parseTokens t0 t1 t2 t3 t4 t5 t6 r0 ['N'] r2 r3 = .ok rec0) :
    rec0.is_filtered = false ∧
    (r1 = ['Y'] →
      parse_sequence_identifier text = .ok { rec0 with is_filtered := true }) ∧
    (r1 = ['N'] → parse_sequence_identifier text = .ok rec0) ∧
    (r1 ≠ ['Y'] → r1 ≠ ['N'] →
      parse_sequence_identifier text = .err .ParseError) := by
  obtain ⟨lf, rd, b, cn, hlf, hrd, hb, hcn, hrec⟩ := parseTokens_ok_inv hwf
  have hbf : b = false := by
    rcases parseFilterFlag_ok_iff.mp hb with ⟨hY, _⟩ | ⟨_, hbf⟩
    · simp at hY
    · exact hbf
  subst hbf
  rw [parse_eq_parseTokens hs hl hr]
  refine ⟨?_, ?_, ?_, ?_⟩
  · rw [hrec]
  · rintro rfl
    have hbY : parseFilterFlag ['Y'] = .ok true := rfl
    rw [parseTokens_ok_intro hlf hrd hbY hcn]
    subst hrec
    rfl
  · rintro rfl
    rw [parseTokens_ok_intro hlf hrd hb hcn]
    subst hrec
    rfl
  · intro hY hN
    have hbe : parseFilterFlag r1 = .err .ParseError :=
      parseFilterFlag_err_iff.mpr ⟨hY, hN, rfl⟩
    simp only [parseTokens, hlf, PResult.ok_bind, hrd, hbe,
      PResult.err_bind]

/-- Witness for C5 at the example line with `Y` as the filter flag. -/
theorem claim_C5_witness :
    exampleRecord.is_filtered = false ∧
    ((['Y'] : List Char) = ['Y'] →
      parse_sequence_identifier exampleLineY =
        .ok { exampleRecord with is_filtered := true }) ∧
    ((['Y'] : List Char) = ['N'] →
      parse_sequence_identifier exampleLineY = .ok exampleRecord) ∧
    ((['Y'] : List Char) ≠ ['Y'] → (['Y'] : List Char) ≠ ['N'] →
      parse_sequence_identifier exampleLineY = .err .ParseError) :=
  claim_C5 exampleLineY
    ("@M03745:11:000000000-B54L5:1:2108:4127:8949".toList)
    ("1:Y:0:0".toList) ("@M03745".toList) ("11".toList)
    ("000000000-B54L5".toList) ("1".toList) ("2108".toList)
    ("4127".toList) ("8949".toList) ("1".toList) (['Y']) ("0".toList)
    ("0".toList) exampleRecord (by decide) (by decide) (by decide)
    (by decide)

/-- Claim C6: on an otherwise well-formed full-format line (well-formed
when the sample token is replaced by `0`), the fourth right-half token
never causes an error: a token parsing as unsigned 8-bit becomes
`Sample::Number`, anything else is stored verbatim as
`Sample::Sequence`. -/
theorem claim_C6 (text lh rh t0 t1 t2 t3 t4 t5 t6 r0 r1 r2 r3 : List Char)
    (rec0 : SequenceIdentifier)
    (hs : splitChar ' ' (rustTrim text) = [lh, rh])
    (hl : splitChar ':' lh = [t0, t1, t2, t3, t4, t5, t6])
    (hr : splitChar ':' rh = [r0, r1, r2, r3])
    (hwf : parseTokens t0 t1 t2 t3 t4 t5 t6 r0 r1 r2 ['0'] = .ok rec0) :
    parse_sequence_identifier text =
      .ok { rec0 with sample := match parseUnsigned 255 r3 with
            | some n => Sample.Number n
            | none => Sample.Sequence r3 } := by
  obtain ⟨lf, rd, b, cn, hlf, hrd, hb, hcn, hrec⟩ := parseTokens_ok_inv hwf
  rw [parse_eq_parseTokens hs hl hr, parseTokens_ok_intro hlf hrd hb hcn]
  subst hrec
  rfl

/-- The example line with the non-numeric sample token `ACGT`. -/
def exampleLineACGT : List Char :=
  "@M03745:11:000000000-B54L5:1:2108:4127:8949 1:N:0:ACGT".toList

/-- Witness for C6: sample token `ACGT` is stored verbatim. -/
theorem claim_C6_witness :
    parse_sequence_identifier exampleLineACGT =
      .ok { exampleRecord with
            sample := match parseUnsigned 255 ("ACGT".toList) with
              | some n => Sample.Number n
              | none => Sample.Sequence ("ACGT".toList) } :=
  claim_C6 exampleLineACGT
    ("@M03745:11:000000000-B54L5:1:2108:4127:8949".toList)
    ("1:N:0:ACGT".toList) ("@M03745".toList) ("11".toList)
    ("000000000-B54L5".toList) ("1".toList) ("2108".toList)
    ("4127".toList) ("8949".toList) ("1".toList) (['N']) ("0".toList)
    ("ACGT".toList) exampleRecord (by decide) (by decide) (by decide)
    (by decide)

/-- A nonempty all-digit token whose value exceeds the width fails the
unsigned parse. -/
theorem parseUnsigned_overflow {max : Nat} {s : List Char} (hne : s ≠ [])
    (hdig : s.all Char.isDigit = true) (hbig : max < digitsToNat s) :
    parseUnsigned max s = none := by
  have hsp : stripPlus s = s := by
    cases s with
    | nil => rfl
    | cons c cs =>
      have hc : c.isDigit = true := by
        have hall := List.all_eq_true.mp hdig
        exact hall c (List.mem_cons_self c cs)
      have hcp : ¬ c = '+' := by
        intro hh
        rw [hh] at hc
        exact absurd hc (by decide)
      simp [stripPlus, hcp]
  have hemp : s.isEmpty = false := by
    cases s with
    | nil => exact absurd rfl hne
    | cons a t => rfl
  simp [parseUnsigned, hsp, hemp, hdig, Nat.not_le.mpr hbig]

/-- Claim C10: on an otherwise well-formed full-format line whose sample
token is a decimal numeral greater than 255, the parser succeeds and
stores the raw token as `Sample::Sequence`. -/
theorem claim_C10 (text lh rh t0 t1 t2 t3 t4 t5 t6 r0 r1 r2 r3 : List Char)
    (rec0 : SequenceIdentifier)
    (hs : splitChar ' ' (rustTrim text) = [lh, rh])
    (hl : splitChar ':' lh = [t0, t1, t2, t3, t4, t5, t6])
    (hr : splitChar ':' rh = [r0, r1, r2, r3])
    (hwf : parseTokens t0 t1 t2 t3 t4 t5 t6 r0 r1 r2 ['0'] = .ok rec0)
    (hne : r3 ≠ []) (hdig : r3.all Char.isDigit = true)
    (hbig : 255 < digitsToNat r3) :
    parse_sequence_identifier text =
      .ok { rec0 with sample := Sample.Sequence r3 } := by
  obtain ⟨lf, rd, b, cn, hlf, hrd, hb, hcn, hrec⟩ := parseTokens_ok_inv hwf
  have hnone : parseUnsigned 255 r3 = none :=
    parseUnsigned_overflow hne hdig hbig
  rw [parse_eq_parseTokens hs hl hr, parseTokens_ok_intro hlf hrd hb hcn,
    hnone]
  subst hrec
  rfl

/-- The example line with the out-of-range sample token `256`. -/
def exampleLine256 : List Char :=
  "@M03745:11:000000000-B54L5:1:2108:4127:8949 1:N:0:256".toList

/-- Witness for C10: sample token `256` is stored as a raw sequence. -/
theorem claim_C10_witness :
    parse_sequence_identifier exampleLine256 =
      .ok { exampleRecord with sample := Sample.Sequence ("256".toList) } :=
  claim_C10 exampleLine256
    ("@M03745:11:000000000-B54L5:1:2108:4127:8949".toList)
    ("1:N:0:256".toList) ("@M03745".toList) ("11".toList)
    ("000000000-B54L5".toList) ("1".toList) ("2108".toList)
    ("4127".toList) ("8949".toList) ("1".toList) (['N']) ("0".toList)
    ("256".toList) exampleRecord (by decide) (by decide) (by decide)
    (by decide) (by decide) (by decide) (by decide)

theorem parseFilterFlag_ne_panicked {s : List Char} :
    parseFilterFlag s ≠ .panicked := by
  unfold parseFilterFlag
  by_cases hy : s = ['Y']
  · simp [hy]
  · by_cases hn : s = ['N'] <;> simp [hy, hn]

/-- Inversion of a failed left-half decode: the error kind is always
`ParseError`, and it comes from one of the integer tokens. -/
theorem parseLeft_err_inv {t0 t1 t2 t3 t4 t5 t6 : List Char}
    {e : IlluminaError} (h : parseLeft t0 t1 t2 t3 t4 t5 t6 = .err e) :
    e = .ParseError ∧
      (parseUnsigned 65535 t1 = none ∨ parseUnsigned 255 t3 = none ∨
       (∃ c1 c2 rest, t4 = c1 :: c2 :: rest ∧
          (parseUnsigned 255 [c1] = none ∨ parseUnsigned 255 [c2] = none ∨
           parseUnsigned 255 rest = none)) ∨
       parseUnsigned 65535 t5 = none ∨ parseUnsigned 65535 t6 = none) := by
  simp only [parseLeft] at h
  cases hx0 : splitAtFirst t0 with
  | err e0 => exact absurd hx0 splitAtFirst_ne_err
  | panicked =>
    simp only [hx0, PResult.panicked_bind] at h
    exact PResult.noConfusion h
  | ok p0 =>
    obtain ⟨d0, sid⟩ := p0
    simp only [hx0, PResult.ok_bind] at h
    cases hx1 : parseUnsigned 65535 t1 with
    | none =>
      simp only [parseNum_err_iff.mpr ⟨hx1, rfl⟩, PResult.err_bind] at h
      cases h
      exact ⟨rfl, Or.inl rfl⟩
    | some rc =>
      simp only [parseNum_ok_iff.mpr hx1, PResult.ok_bind] at h
      cases hx3 : parseUnsigned 255 t3 with
      | none =>
        simp only [parseNum_err_iff.mpr ⟨hx3, rfl⟩, PResult.err_bind] at h
        cases h
        exact ⟨rfl, Or.inr (Or.inl rfl)⟩
      | some ln =>
        simp only [parseNum_ok_iff.mpr hx3, PResult.ok_bind] at h
        cases hx4 : splitAtFirst t4 with
        | err e4 => exact absurd hx4 splitAtFirst_ne_err
        | panicked =>
          simp only [hx4, PResult.panicked_bind] at h
          exact PResult.noConfusion h
        | ok p4 =>
          obtain ⟨c1, rem⟩ := p4
          simp only [hx4, PResult.ok_bind] at h
          obtain ⟨ht4, hc1⟩ := splitAtFirst_ok_iff.mp hx4
          cases hx5 : splitAtFirst rem with
          | err e5 => exact absurd hx5 splitAtFirst_ne_err
          | panicked =>
            simp only [hx5, PResult.panicked_bind] at h
            exact PResult.noConfusion h
          | ok p5 =>
            obtain ⟨c2, rest⟩ := p5
            simp only [hx5, PResult.ok_bind] at h
            obtain ⟨hrem, hc2⟩ := splitAtFirst_ok_iff.mp hx5
            have ht4' : t4 = c1 :: c2 :: rest := by
              rw [ht4, hrem]
            cases hxs : parseUnsigned 255 [c1] with
            | none =>
              simp only [parseNum_err_iff.mpr ⟨hxs, rfl⟩,
                PResult.err_bind] at h
              cases h
              exact ⟨rfl, Or.inr (Or.inr (Or.inl
                ⟨c1, c2, rest, ht4', Or.inl hxs⟩))⟩
            | some sd =>
              simp only [parseNum_ok_iff.mpr hxs, PResult.ok_bind] at h
              cases hxw : parseUnsigned 255 [c2] with
              | none =>
                simp only [parseNum_err_iff.mpr ⟨hxw, rfl⟩,
                  PResult.err_bind] at h
                cases h
                exact ⟨rfl, Or.inr (Or.inr (Or.inl
                  ⟨c1, c2, rest, ht4', Or.inr (Or.inl hxw)⟩))⟩
              | some sw =>
                simp only [parseNum_ok_iff.mpr hxw, PResult.ok_bind] at h
                cases hxt : parseUnsigned 255 rest with
                | none =>
                  simp only [parseNum_err_iff.mpr ⟨hxt, rfl⟩,
                    PResult.err_bind] at h
                  cases h
                  exact ⟨rfl, Or.inr (Or.inr (Or.inl
                    ⟨c1, c2, rest, ht4', Or.inr (Or.inr hxt)⟩))⟩
                | some tl =>
                  simp only [parseNum_ok_iff.mpr hxt, PResult.ok_bind] at h
                  cases hxx : parseUnsigned 65535 t5 with
                  | none =>
                    simp only [parseNum_err_iff.mpr ⟨hxx, rfl⟩,
                      PResult.err_bind] at h
                    cases h
                    exact ⟨rfl, Or.inr (Or.inr (Or.inr (Or.inl rfl)))⟩
                  | some xv =>
                    simp only [parseNum_ok_iff.mpr hxx,
                      PResult.ok_bind] at h
                    cases hxy : parseUnsigned 65535 t6 with
                    | none =>
                      simp only [parseNum_err_iff.mpr ⟨hxy, rfl⟩,
                        PResult.err_bind] at h
                      cases h
                      exact ⟨rfl, Or.inr (Or.inr (Or.inr (Or.inr rfl)))⟩
                    | some yv =>
                      simp only [parseNum_ok_iff.mpr hxy, PResult.ok_bind,
                        PResult.pure_eq] at h
                      exact PResult.noConfusion h

/-- Inversion of a failed full decode: the error kind `ParseError` can
arise only from the nine integer tokens or from the filter flag — never
from the machine id, the flow cell id or the sample token. -/
theorem parseTokens_err_inv {t0 t1 t2 t3 t4 t5 t6 r0 r1 r2 r3 : List Char}
    {e : IlluminaError}
    (h : parseTokens t0 t1 t2 t3 t4 t5 t6 r0 r1 r2 r3 = .err e) :
    e = .ParseError ∧
      (parseUnsigned 65535 t1 = none ∨ parseUnsigned 255 t3 = none ∨
       (∃ c1 c2 rest, t4 = c1 :: c2 :: rest ∧
          (parseUnsigned 255 [c1] = none ∨ parseUnsigned 255 [c2] = none ∨
           parseUnsigned 255 rest = none)) ∨
       parseUnsigned 65535 t5 = none ∨ parseUnsigned 65535 t6 = none ∨
       parseUnsigned 255 r0 = none ∨ (r1 ≠ ['Y'] ∧ r1 ≠ ['N']) ∨
       parseUnsigned 255 r2 = none) := by
  simp only [parseTokens] at h
  cases hx : parseLeft t0 t1 t2 t3 t4 t5 t6 with
  | err e0 =>
    simp only [hx, PResult.err_bind] at h
    cases h
    obtain ⟨he, hd⟩ := parseLeft_err_inv hx
    refine ⟨he, ?_⟩
    rcases hd with h1 | h1 | h1 | h1 | h1
    · exact Or.inl h1
    · exact Or.inr (Or.inl h1)
    · exact Or.inr (Or.inr (Or.inl h1))
    · exact Or.inr (Or.inr (Or.inr (Or.inl h1)))
    · exact Or.inr (Or.inr (Or.inr (Or.inr (Or.inl h1))))
  | panicked =>
    simp only [hx, PResult.panicked_bind] at h
    exact PResult.noConfusion h
  | ok lf =>
    simp only [hx, PResult.ok_bind] at h
    cases hr0 : parseUnsigned 255 r0 with
    | none =>
      simp only [parseNum_err_iff.mpr ⟨hr0, rfl⟩, PResult.err_bind] at h
      cases h
      exact ⟨rfl, Or.inr (Or.inr (Or.inr (Or.inr (Or.inr (Or.inl rfl)))))⟩
    | some rd =>
      simp only [parseNum_ok_iff.mpr hr0, PResult.ok_bind] at h
      cases hfl : parseFilterFlag r1 with
      | err ef =>
        simp only [hfl, PResult.err_bind] at h
        cases h
        obtain ⟨hY, hN, he⟩ := parseFilterFlag_err_iff.mp hfl
        exact ⟨he, Or.inr (Or.inr (Or.inr (Or.inr (Or.inr (Or.inr
          (Or.inl ⟨hY, hN⟩))))))⟩
      | panicked => exact absurd hfl parseFilterFlag_ne_panicked
      | ok b =>
        simp only [hfl, PResult.ok_bind] at h
        cases hr2 : parseUnsigned 255 r2 with
        | none =>
          simp only [parseNum_err_iff.mpr ⟨hr2, rfl⟩,
            PResult.err_bind] at h
          cases h
          exact ⟨rfl, Or.inr (Or.inr (Or.inr (Or.inr (Or.inr (Or.inr
            (Or.inr rfl))))))⟩
        | some cn =>
          simp only [parseNum_ok_iff.mpr hr2, PResult.ok_bind,
            PResult.pure_eq] at h
          exact PResult.noConfusion h

/-- The example line with `+11` as the run-count token. -/
def plusLine : List Char :=
  "@M03745:+11:000000000-B54L5:1:2108:4127:8949 1:N:0:0".toList

/-- Counterexample to claim C8 as stated: the run-count token `+11`
contains a non-digit character, yet the parser succeeds with
run_count = 11 (Rust's unsigned integer parse accepts one leading `+`)
instead of returning `ParseError`. -/
theorem claim_C8_counterexample :
    ("+11".toList).all Char.isDigit = false ∧
    parse_sequence_identifier plusLine =
      .ok { sequencer_id := "M03745".toList, run_count := 11,
            flow_cell_id := "000000000-B54L5".toList, lane := 1, side := 2,
            swath := 1, tile := 8, x := 4127, y := 8949, read := 1,
            is_filtered := false, control_number := 0,
            sample := Sample.Number 0 } := by decide

/-- Claim C8 as amended.  Three parts.
1. An integer token fails to parse exactly when, after stripping one
   optional leading `+`, it is empty, contains a non-digit, or its value
   exceeds the field's maximum.
2. On an otherwise well-formed line, replacing any of the nine integer
   tokens (run_count, lane, side, swath, tile, x, y, read, control_number;
   widths 65535 for run_count/x/y and 255 for the rest) by a failing token
   makes the parser return `ParseError`.
3. Only those tokens, plus the filter flag, can cause `ParseError`. -/
theorem claim_C8_amended :
    (∀ (w : Nat) (s : List Char), parseUnsigned w s = none ↔
      (stripPlus s = [] ∨ (stripPlus s).all Char.isDigit = false ∨
       w < digitsToNat (stripPlus s))) ∧
    (∀ t0 t1 t2 t3 t4 t5 t6 r0 r1 r2 r3 : List Char,
      ∀ rec : SequenceIdentifier,
      parseTokens t0 t1 t2 t3 t4 t5 t6 r0 r1 r2 r3 = .ok rec →
      (∀ u, parseUnsigned 65535 u = none →
        parseTokens t0 u t2 t3 t4 t5 t6 r0 r1 r2 r3 = .err .ParseError) ∧
      (∀ u, parseUnsigned 255 u = none →
        parseTokens t0 t1 t2 u t4 t5 t6 r0 r1 r2 r3 = .err .ParseError) ∧
      (∀ (c1 c2 : Char) (rest : List Char), c1.toNat < 128 → c2.toNat < 128 →
        (parseUnsigned 255 [c1] = none ∨ parseUnsigned 255 [c2] = none ∨
         parseUnsigned 255 rest = none) →
        parseTokens t0 t1 t2 t3 (c1 :: c2 :: rest) t5 t6 r0 r1 r2 r3 =
          .err .ParseError) ∧
      (∀ u, parseUnsigned 65535 u = none →
        parseTokens t0 t1 t2 t3 t4 u t6 r0 r1 r2 r3 = .err .ParseError) ∧
      (∀ u, parseUnsigned 65535 u = none →
        parseTokens t0 t1 t2 t3 t4 t5 u r0 r1 r2 r3 = .err .ParseError) ∧
      (∀ u, parseUnsigned 255 u = none →
        parseTokens t0 t1 t2 t3 t4 t5 t6 u r1 r2 r3 = .err .ParseError) ∧
      (∀ u, parseUnsigned 255 u = none →
        parseTokens t0 t1 t2 t3 t4 t5 t6 r0 r1 u r3 = .err .ParseError)) ∧
    (∀ t0 t1 t2 t3 t4 t5 t6 r0 r1 r2 r3 : List Char,
      parseTokens t0 t1 t2 t3 t4 t5 t6 r0 r1 r2 r3 = .err .ParseError →
      (parseUnsigned 65535 t1 = none ∨ parseUnsigned 255 t3 = none ∨
       (∃ c1 c2 rest, t4 = c1 :: c2 :: rest ∧
          (parseUnsigned 255 [c1] = none ∨ parseUnsigned 255 [c2] = none ∨
           parseUnsigned 255 rest = none)) ∨
       parseUnsigned 65535 t5 = none ∨ parseUnsigned 65535 t6 = none ∨
       parseUnsigned 255 r0 = none ∨ (r1 ≠ ['Y'] ∧ r1 ≠ ['N']) ∨
       parseUnsigned 255 r2 = none)) := by
  refine ⟨?_, ?_, ?_⟩
  · intro w s
    by_cases h1 : stripPlus s = []
    · simp [parseUnsigned, h1]
    · have hf : (stripPlus s).isEmpty = false := by
        cases hx : stripPlus s with
        | nil => exact absurd hx h1
        | cons a t => rfl
      by_cases h2 : (stripPlus s).all Char.isDigit
      · by_cases h3 : digitsToNat (stripPlus s) ≤ w
        · simp [parseUnsigned, hf, h1, h2, h3]
        · simp [parseUnsigned, hf, h1, h2, h3]
          omega
      · simp [parseUnsigned, hf, h1, h2]
  · intro t0 t1 t2 t3 t4 t5 t6 r0 r1 r2 r3 rec hwf
    obtain ⟨lf, rd, b, cn, hlf, hrd, hb, hcn, hrec⟩ := parseTokens_ok_inv hwf
    obtain ⟨d, c1, c2, rest, ht0, hd, hrc, hfc, hln, ht4, hc1, hc2, hsd, hsw,
      htl, hxv, hyv⟩ := parseLeft_ok_inv hlf
    have hS0 : splitAtFirst t0 = .ok (d, lf.sequencer_id) :=
      splitAtFirst_ok_iff.mpr ⟨ht0, hd⟩
    have hT1 : parseNum 65535 t1 = .ok lf.run_count := parseNum_ok_iff.mpr hrc
    have hT3 : parseNum 255 t3 = .ok lf.lane := parseNum_ok_iff.mpr hln
    have hS4 : splitAtFirst t4 = .ok (c1, c2 :: rest) :=
      splitAtFirst_ok_iff.mpr ⟨ht4, hc1⟩
    have hS4b : splitAtFirst (c2 :: rest) = .ok (c2, rest) :=
      splitAtFirst_ok_iff.mpr ⟨rfl, hc2⟩
    have hSd : parseNum 255 [c1] = .ok lf.side := parseNum_ok_iff.mpr hsd
    have hSw : parseNum 255 [c2] = .ok lf.swath := parseNum_ok_iff.mpr hsw
    have hTl : parseNum 255 rest = .ok lf.tile := parseNum_ok_iff.mpr htl
    have hT5 : parseNum 65535 t5 = .ok lf.x := parseNum_ok_iff.mpr hxv
    refine ⟨?_, ?_, ?_, ?_, ?_, ?_, ?_⟩
    · intro u hu
      simp only [parseTokens, parseLeft, hS0, PResult.ok_bind,
        parseNum_err_iff.mpr ⟨hu, rfl⟩, PResult.err_bind]
    · intro u hu
      simp only [parseTokens, parseLeft, hS0, PResult.ok_bind, hT1,
        parseNum_err_iff.mpr ⟨hu, rfl⟩, PResult.err_bind]
    · intro c1' c2' rest' hb1 hb2 hor
      have hS4' : splitAtFirst (c1' :: c2' :: rest') =
          .ok (c1', c2' :: rest') := splitAtFirst_ok_iff.mpr ⟨rfl, hb1⟩
      have hS4b' : splitAtFirst (c2' :: rest') = .ok (c2', rest') :=
        splitAtFirst_ok_iff.mpr ⟨rfl, hb2⟩
      cases hk1 : parseUnsigned 255 [c1'] with
      | none =>
        simp only [parseTokens, parseLeft, hS0, PResult.ok_bind, hT1, hT3,
          hS4', hS4b', parseNum_err_iff.mpr ⟨hk1, rfl⟩, PResult.err_bind]
      | some v1 =>
        cases hk2 : parseUnsigned 255 [c2'] with
        | none =>
          simp only [parseTokens, parseLeft, hS0, PResult.ok_bind, hT1, hT3,
            hS4', hS4b', parseNum_ok_iff.mpr hk1,
            parseNum_err_iff.mpr ⟨hk2, rfl⟩, PResult.err_bind]
        | some v2 =>
          have hk3 : parseUnsigned 255 rest' = none := by
            rcases hor with hA | hA | hA
            · exact Option.noConfusion (hA.symm.trans hk1)
            · exact Option.noConfusion (hA.symm.trans hk2)
            · exact hA
          simp only [parseTokens, parseLeft, hS0, PResult.ok_bind, hT1, hT3,
            hS4', hS4b', parseNum_ok_iff.mpr hk1, parseNum_ok_iff.mpr hk2,
            parseNum_err_iff.mpr ⟨hk3, rfl⟩, PResult.err_bind]
    · intro u hu
      simp only [parseTokens, parseLeft, hS0, PResult.ok_bind, hT1, hT3, hS4,
        hS4b, hSd, hSw, hTl, parseNum_err_iff.mpr ⟨hu, rfl⟩,
        PResult.err_bind]
    · intro u hu
      simp only [parseTokens, parseLeft, hS0, PResult.ok_bind, hT1, hT3, hS4,
        hS4b, hSd, hSw, hTl, hT5, parseNum_err_iff.mpr ⟨hu, rfl⟩,
        PResult.err_bind]
    · intro u hu
      simp only [parseTokens, hlf, PResult.ok_bind,
        parseNum_err_iff.mpr ⟨hu, rfl⟩, PResult.err_bind]
    · intro u hu
      simp only [parseTokens, hlf, PResult.ok_bind, hrd, hb,
        parseNum_err_iff.mpr ⟨hu, rfl⟩, PResult.err_bind]
  · intro t0 t1 t2 t3 t4 t5 t6 r0 r1 r2 r3 h
    exact (parseTokens_err_inv h).2

/-- Witness for the amended C8: on the example line's tokens, replacing
the run-count token by the overflowing `65536` yields `ParseError`. -/
theorem claim_C8_amended_witness :
    parseTokens ("@M03745".toList) ("65536".toList)
      ("000000000-B54L5".toList) ("1".toList) ("2108".toList)
      ("4127".toList) ("8949".toList) ("1".toList) ['N'] ("0".toList)
      ("0".toList) = .err .ParseError :=
  (claim_C8_amended.2.1 ("@M03745".toList) ("11".toList)
      ("000000000-B54L5".toList) ("1".toList) ("2108".toList)
      ("4127".toList) ("8949".toList) ("1".toList) ['N'] ("0".toList)
      ("0".toList) exampleRecord (by decide)).1 ("65536".toList) (by decide)

end IlluminaCoordinates
